import Mathlib

/-!
Verification of the Gridiron concentrated-liquidity pair contract
(`src/contracts/pair_concentrated_inj/src/contract.rs`) and of the xyk pair
behaviour pinned by its integration tests (`src/contracts/pair/tests/integration.rs`).

Monetary quantities of the PCL pair are embedded as exact rationals (the contract
computes in 256-bit fixed point, `Decimal256`; the spec's FixedPointMath contract is
checked, lossless arithmetic, so the exact-rational embedding is faithful at the
granularity of the claims proved here).  Raw token amounts (`Uint128`) are embedded
as naturals with floor division.  Fallible operations return `Except ContractError`;
a returned error models the transaction aborting with no state committed.

The numeric helpers of the `gridiron_pcl_common` package (`calc_d`,
`calc_provide_fee`, `assert_slippage_tolerance`, `PoolState::update_price`) are not
under `src/`; following the spec they are treated as parameters (`PclHooks`), and
theorems quantify over their implementations.  Concrete evaluations instantiate
them with simple members of the family the spec describes.
-/

namespace Gridiron

/-- Errors of the pair contract (`src/contracts/pair_concentrated_inj/src/error.rs`),
restricted to the variants reachable from the embedded operations.  `std` carries the
message of a `StdError::generic_err`; `didNotConverge` models a `calc_d` failure
propagated with `?`; `divByZero` models the `Decimal256` division-by-zero /
`Uint128` underflow panics (which also abort the transaction). -/
inductive ContractError where
  | std (msg : String)
  | unauthorized
  | invalidZeroAmount
  | minimumLiquidityAmountError
  | invalidNumberOfAssets (n : ℕ)
  | didNotConverge
  | slippageViolation
  | priceUpdateFailed
  | divByZero
  deriving DecidableEq, Repr

/-- Amp/gamma pair (`gridiron_pcl_common::state::AmpGamma`, fields as used by
`contract.rs`). -/
structure AmpGamma where
  amp : ℚ
  gamma : ℚ
  deriving DecidableEq, Repr

/-- Modelled from the spec: `AmpGamma::default()` (the `gridiron_pcl_common` package is
not under `src/`); a Rust `derive(Default)` on two decimal fields yields zeros. -/
def AmpGamma.zero : AmpGamma := ⟨0, 0⟩

/-- Price state (`gridiron_pcl_common::state::PriceState`, fields exactly as
constructed in `contract.rs` lines 118-125). -/
structure PriceState where
  oraclePrice : ℚ
  lastPrice : ℚ
  priceScale : ℚ
  lastPriceUpdate : ℕ
  xcpProfit : ℚ
  xcpProfitReal : ℚ
  deriving DecidableEq, Repr

/-- Pool state (`gridiron_pcl_common::state::PoolState`, fields exactly as
constructed in `contract.rs` lines 113-126). -/
structure PoolState where
  initial : AmpGamma
  future : AmpGamma
  initialTime : ℕ
  futureTime : ℕ
  priceState : PriceState
  deriving DecidableEq, Repr

/-- Modelled from the spec: `PoolState::get_amp_gamma` (`gridiron_pcl_common`, not
under `src/`): the current effective `AmpGamma` at time `t` is a component-wise
linear interpolation between `initial` and `future` clamped to
`[initial_time, future_time]` (spec section 4.3). -/
def PoolState.getAmpGamma (ps : PoolState) (now : ℕ) : AmpGamma :=
  if now < ps.futureTime then
    if now ≤ ps.initialTime then ps.initial
    else
      let total : ℚ := (ps.futureTime : ℚ) - (ps.initialTime : ℚ)
      let elapsed : ℚ := (now : ℚ) - (ps.initialTime : ℚ)
      { amp := ps.initial.amp + (ps.future.amp - ps.initial.amp) * elapsed / total
        gamma := ps.initial.gamma + (ps.future.gamma - ps.initial.gamma) * elapsed / total }
  else ps.future

/-- Pool parameters (spec section 3; `gridiron_pcl_common::state::PoolParams`). -/
structure PoolParams where
  midFee : ℚ
  outFee : ℚ
  feeGamma : ℚ
  repegProfitThreshold : ℚ
  minPriceScaleDelta : ℚ
  maHalfTime : ℕ
  deriving DecidableEq, Repr

/-- The slice of the contract `Config` that the embedded operations read and write
(`gridiron_pcl_common::state::Config` plus the pair addresses from `PairInfo`). -/
structure Config where
  liquidityToken : String
  contractAddr : String
  poolParams : PoolParams
  poolState : PoolState
  deriving DecidableEq, Repr

/-- An LP token's precision (`contract.rs` line 56). -/
def LP_TOKEN_PRECISION : ℕ := 6

/-- Modelled from the spec: `MINIMUM_LIQUIDITY_AMOUNT` (declared in the `gridiron`
asset package, not under `src/`), in raw LP-token units; its exact value does not
affect any claim proved here, only that it is nonzero. -/
def MINIMUM_LIQUIDITY_AMOUNT : ℕ := 1000

/-- `MINIMUM_LIQUIDITY_AMOUNT.to_decimal256(LP_TOKEN_PRECISION)` as used at
`contract.rs` line 488. -/
def minLiquidityDec : ℚ := (MINIMUM_LIQUIDITY_AMOUNT : ℚ) / 10 ^ LP_TOKEN_PRECISION

/-- Modelled from the spec: `MIN_TRADE_SIZE` (declared in the `gridiron` pair
package, not under `src/`): the "minimum trade-size threshold" of spec
sections 4.5-4.6; the claims proved here depend only on it being positive. -/
def MIN_TRADE_SIZE : ℚ := 1 / 10 ^ 9

/-- Modelled from the spec: `get_xcp(d, price_scale) = d / (2 * sqrt(price_scale))`
(spec section 4.2; `gridiron_pcl_common` is not under `src/`).  `Rat.sqrt` is exact
at every perfect-square price scale, which covers all concrete runs below. -/
def getXcp (d priceScale : ℚ) : ℚ := d / (2 * Rat.sqrt priceScale)

/-- `Decimal256::to_uint(LP_TOKEN_PRECISION)`: truncation of an LP-share decimal to
raw token units. -/
def toLpUint (q : ℚ) : ℕ := (⌊q * 10 ^ LP_TOKEN_PRECISION⌋).toNat

/-- Modelled from the spec: interfaces of the `gridiron_pcl_common` numeric helpers
invoked by `provide_liquidity` (`calc_d`, `calc_provide_fee`,
`assert_slippage_tolerance`, `PoolState::update_price`); the package is not under
`src/`.  Theorems quantify over the implementations; `none` models the helper
failing (solver non-convergence, slippage assertion, EMA/repeg failure). -/
structure PclHooks where
  calcD : List ℚ → AmpGamma → Option ℚ
  calcProvideFee : List ℚ → List ℚ → PoolParams → ℚ
  assertSlippage : List ℚ → ℚ → PriceState → Option ℚ → Option ℚ
  updatePrice : PoolParams → ℕ → ℚ → List ℚ → ℚ → PriceState → Option PriceState

/-- Modelled from the spec: a concrete member of the helper family, used only to
evaluate concrete runs: the constant-sum limit of the invariant (the amp-dominated
regime of spec section 4.2, homogeneous of degree one), a zero provide fee (a pool
with `mid_fee = out_fee = 0`), a slippage assertion that accepts with slippage `0`,
and a price update that leaves the price state unchanged (the spec's EMA update with
zero elapsed time is a no-op). -/
def specHooks : PclHooks where
  calcD := fun xs _ => some (xs.foldl (· + ·) 0)
  calcProvideFee := fun _ _ _ => 0
  assertSlippage := fun _ _ _ _ => some 0
  updatePrice := fun _ _ _ _ _ st => some st

/-- Externally visible steps of a `provide_liquidity` call, in control-flow order:
the mint of the permanently locked minimum liquidity to the pair contract itself
(`contract.rs` line 491), the completion of the LP-share delta computation (end of
the `let share = ...` block, lines 485-519), the `PoolState::update_price`
invocation with its arguments (lines 544-550), and the mint of the share to the
receiver (line 558). -/
inductive PEvent where
  | mintMinLiq (dest : String) (amountRaw : ℕ)
  | shareComputed (share : ℚ)
  | priceUpdated (xp : List ℚ) (totalLp : ℚ) (lastPrice : ℚ)
  | mintShares (dest : String) (amountRaw : ℕ)
  deriving Repr

/-- Result of a successful `provide_liquidity` call. -/
structure ProvideOut where
  events : List PEvent
  share : ℚ
  config : Config
  deriving Repr

/-- Common tail of `provide_liquidity` (`contract.rs` lines 521-580): accrued-share
divergence check, optional slippage assertion and price update, and the LP mint to
the receiver.  `events₀` are the events already emitted by the share computation,
`cfg₁` the config as already modified by it. -/
def finishProvide (h : PclHooks) (cfg₁ : Config) (now : ℕ) (receiver : String)
    (d0 d1 : ℚ) (newXp : List ℚ) (totalShare share : ℚ) (slipTol : Option ℚ)
    (events₀ : List PEvent) : Except ContractError ProvideOut :=
  let pscale := cfg₁.poolState.priceState.priceScale
  let frac := share / (totalShare + share)
  let bal0 := newXp.headD 0 * frac
  let bal1 := newXp.getD 1 0 * frac / pscale
  let diff0 := |d0 - bal0|
  let diff1 := |d1 - bal1|
  if MIN_TRADE_SIZE ≤ diff0 ∧ MIN_TRADE_SIZE ≤ diff1 then
    match h.assertSlippage [d0, d1] share cfg₁.poolState.priceState slipTol with
    | none => .error .slippageViolation
    | some _ =>
      let lastPrice := diff0 / diff1
      match h.updatePrice cfg₁.poolParams now (totalShare + share) newXp lastPrice
          cfg₁.poolState.priceState with
      | none => .error .priceUpdateFailed
      | some pst =>
        .ok { events := events₀ ++ [.shareComputed share,
                .priceUpdated newXp (totalShare + share) lastPrice,
                .mintShares receiver (toLpUint share)]
              share := share
              config := { cfg₁ with poolState := { cfg₁.poolState with priceState := pst } } }
  else
    .ok { events := events₀ ++ [.shareComputed share, .mintShares receiver (toLpUint share)]
          share := share
          config := cfg₁ }

/-- `provide_liquidity` (`contract.rs` lines 353-581) from the point where the two
deposits are known, on the path where the order-book subaccount is already
reconciled (`ob_state.last_balances == subacc_balances`, so the
`process_cumulative_trade` branch of lines 454-473 is skipped).  `d0, d1` are the
deposits after precision conversion and asset reordering (lines 416-424); `p0, p1`
the pool balances as queried, which already include the just-sent native deposits
(lines 434-443 subtract them back out); `totalShare` the current LP supply in LP
decimals. -/
def provide_liquidity (h : PclHooks) (cfg : Config) (now : ℕ) (receiver : String)
    (d0 d1 p0 p1 totalShare : ℚ) (slipTol : Option ℚ) :
    Except ContractError ProvideOut :=
  if totalShare = 0 ∧ (d0 = 0 ∨ d1 = 0) then .error .invalidZeroAmount
  else if p0 < d0 ∨ p1 < d1 then .error (.std "subtraction underflow")
  else
    let xs0 := p0 - d0
    let xs1 := p1 - d1
    let pscale := cfg.poolState.priceState.priceScale
    let newXp : List ℚ := [xs0 + d0, (xs1 + d1) * pscale]
    let ampGamma := cfg.poolState.getAmpGamma now
    match h.calcD newXp ampGamma with
    | none => .error .didNotConverge
    | some newD =>
      if totalShare = 0 then
        let xcp := getXcp newD pscale
        if xcp < minLiquidityDec then .error .minimumLiquidityAmountError
        else
          let mintAmount := xcp - minLiquidityDec
          if mintAmount = 0 then .error .minimumLiquidityAmountError
          else
            finishProvide h
              { cfg with poolState := { cfg.poolState with priceState :=
                  { cfg.poolState.priceState with xcpProfit := 1, xcpProfitReal := 1 } } }
              now receiver d0 d1 newXp totalShare mintAmount slipTol
              [.mintMinLiq cfg.contractAddr MINIMUM_LIQUIDITY_AMOUNT]
      else
        let oldXp : List ℚ := [xs0, xs1 * pscale]
        match h.calcD oldXp ampGamma with
        | none => .error .didNotConverge
        | some oldD =>
          let shareRaw := max 0 (totalShare * newD / oldD - totalShare)
          let fee := h.calcProvideFee [d0, d1 * pscale] newXp cfg.poolParams
          if 1 < fee then .error (.std "subtraction underflow")
          else
            finishProvide h cfg now receiver d0 d1 newXp totalShare
              (shareRaw * (1 - fee)) slipTol []

/-- Result of a successful `withdraw_liquidity` call: refunds in raw token units,
the LP amount burned, and the updated config. -/
structure WithdrawOut where
  refund0 : ℕ
  refund1 : ℕ
  burn : ℕ
  config : Config
  deriving DecidableEq, Repr

/-- `withdraw_liquidity` (`contract.rs` lines 590-691).  `pools0, pools1` are the
queried pool balances and `totalShare` the LP supply, all in raw units (an asset
precision of zero; the precision factors cancel in every quantity below).
`get_share_in_assets` is modelled from the spec ("`refund[i] = pools[i].amount *
(lp_amount − 1) / total_share`, rounded down"; the helper lives in
`gridiron_pcl_common`, not under `src/`); the `− 1` is `amount.saturating_sub(1)`
from line 621, which natural-number subtraction reproduces exactly.  The
`total_share - amount` underflow / division-by-zero panic in the
`xcp_profit_real` update (line 652) is modelled as `divByZero`. -/
def withdraw_liquidity (calcD : List ℚ → AmpGamma → Option ℚ) (cfg : Config)
    (now : ℕ) (infoSender : String) (amount : ℕ) (assets : List (String × ℕ))
    (pools0 pools1 totalShare : ℕ) : Except ContractError WithdrawOut :=
  if infoSender ≠ cfg.liquidityToken then .error .unauthorized
  else if assets ≠ [] then .error (.std "Imbalanced withdraw is currently disabled")
  else
    let refund0 := pools0 * (amount - 1) / totalShare
    let refund1 := pools1 * (amount - 1) / totalShare
    if totalShare ≤ amount then .error .divByZero
    else
      let pscale := cfg.poolState.priceState.priceScale
      let xs : List ℚ := [((pools0 - refund0 : ℕ) : ℚ),
        ((pools1 - refund1 : ℕ) : ℚ) * pscale]
      match calcD xs (cfg.poolState.getAmpGamma now) with
      | none => .error .didNotConverge
      | some d =>
        let newReal := getXcp d pscale /
          (((totalShare - amount : ℕ) : ℚ) / 10 ^ LP_TOKEN_PRECISION)
        .ok { refund0 := refund0
              refund1 := refund1
              burn := amount
              config := { cfg with poolState := { cfg.poolState with priceState :=
                { cfg.poolState.priceState with xcpProfitReal := newReal } } } }

/-- `instantiate` (`contract.rs` lines 113-126): the `PoolState` stored at pool
instantiation, given the validated init parameters and the block time. -/
def instantiatePoolState (amp gamma priceScale : ℚ) (now : ℕ) : PoolState :=
  { initial := AmpGamma.zero
    future := ⟨amp, gamma⟩
    futureTime := now
    initialTime := 0
    priceState := { oraclePrice := priceScale
                    lastPrice := priceScale
                    priceScale := priceScale
                    lastPriceUpdate := now
                    xcpProfit := 0
                    xcpProfitReal := 0 } }

/-- True on the price-update event. -/
def isPriceUpdated : PEvent → Bool
  | .priceUpdated _ _ _ => true
  | _ => false

/-- True on the share-computation event. -/
def isShareComputed : PEvent → Bool
  | .shareComputed _ => true
  | _ => false

/-- Whether a trace contains a price update. -/
def hasPriceUpdate : List PEvent → Bool
  | [] => false
  | e :: t => isPriceUpdated e || hasPriceUpdate t

/-- Whether a trace contains a share computation. -/
def hasShareComputed : List PEvent → Bool
  | [] => false
  | e :: t => isShareComputed e || hasShareComputed t

/-- Whether some price update occurs strictly before the share computation. -/
def updateBeforeShare : List PEvent → Bool
  | [] => false
  | e :: t =>
    if isPriceUpdated e then hasShareComputed t
    else if isShareComputed e then false
    else updateBeforeShare t

/-- Arguments (repriced balances, total LP) of the first price update of a trace. -/
def firstPriceUpdateArgs : List PEvent → Option (List ℚ × ℚ)
  | [] => none
  | .priceUpdated xp tl _ :: _ => some (xp, tl)
  | _ :: t => firstPriceUpdateArgs t

/-- Events of a provide result (empty on error). -/
def eventsOf : Except ContractError ProvideOut → List PEvent
  | .ok o => o.events
  | .error _ => []

/-- Whether an `Except` result is a success. -/
def isOkB {α : Type} : Except ContractError α → Bool
  | .ok _ => true
  | .error _ => false

/-!
Abstract LP-share ledger for the fresh-pool invariant.  The LP token itself is a
cw20 contract outside `src/`; the ledger is abstracted to the pair contract's own
balance and the aggregate balance of all other holders, which is exactly the
granularity the invariant needs.
-/

/-- The pair contract's own LP balance and the aggregate of all other holders. -/
structure LpLedger where
  contractBal : ℕ
  othersBal : ℕ
  deriving DecidableEq, Repr

/-- Total LP supply of a ledger. -/
def LpLedger.total (l : LpLedger) : ℕ := l.contractBal + l.othersBal

/-- Operations that touch the LP supply.  `toContract` records whether the
`receiver` of a provide is the pair contract itself (a caller may set any
receiver, `contract.rs` line 556). -/
inductive LpOp where
  | provideFirst (mintAmount : ℕ) (toContract : Bool)
  | provideNext (share : ℕ) (toContract : Bool)
  | withdrawOp (amount : ℕ)
  | swapOp
  deriving DecidableEq, Repr

/-- One LP-supply transition, mirroring the embedded contract operations:
a first provide happens only on an empty ledger and mints
`MINIMUM_LIQUIDITY_AMOUNT` to the pair contract itself (`contract.rs` lines
491-498) plus a nonzero `mint_amount` to the receiver (nonzero by the
`mint_amount.is_zero()` guard of line 501, proved in the claim-C2 theorem);
a subsequent provide mints its share to the receiver; a withdrawal burns LP
tokens that were sent to the pair through the cw20 hook (`contract.rs` lines
673-680), necessarily from a holder other than the pair contract, since the
pair contract never sends its own LP tokens to anyone; a swap does not touch
the LP supply. -/
inductive LpStep : LpLedger → LpOp → LpLedger → Prop where
  | provideFirst {m : ℕ} {tc : Bool} :
      0 < m →
      LpStep ⟨0, 0⟩ (.provideFirst m tc)
        (if tc then ⟨MINIMUM_LIQUIDITY_AMOUNT + m, 0⟩
         else ⟨MINIMUM_LIQUIDITY_AMOUNT, m⟩)
  | provideNext {l : LpLedger} {s : ℕ} {tc : Bool} :
      0 < l.total →
      LpStep l (.provideNext s tc)
        (if tc then ⟨l.contractBal + s, l.othersBal⟩
         else ⟨l.contractBal, l.othersBal + s⟩)
  | withdrawOp {l : LpLedger} {a : ℕ} :
      a ≤ l.othersBal →
      LpStep l (.withdrawOp a) ⟨l.contractBal, l.othersBal - a⟩
  | swapOp {l : LpLedger} : LpStep l .swapOp l

/-- Ledgers reachable after the first successful provide on a fresh pool. -/
inductive LpReachable : LpLedger → Prop where
  | first {m : ℕ} {tc : Bool} {l : LpLedger} :
      LpStep ⟨0, 0⟩ (.provideFirst m tc) l → LpReachable l
  | step {l : LpLedger} {op : LpOp} {l' : LpLedger} :
      LpReachable l → LpStep l op l' → LpReachable l'

/-!
Models of the constant-product (xyk) pair pinned by its integration tests.  The
xyk pair contract itself is not under `src/`; only its tests are
(`src/contracts/pair/tests/integration.rs`).
-/

/-- Result of an xyk swap with fee splitting, in raw token units. -/
structure XykSwapResult where
  returnAmount : ℕ
  totalFee : ℕ
  feeShare : ℕ
  makerFee : ℕ
  deriving DecidableEq, Repr

/-- Modelled from the spec: the xyk pair's swap with the fee-share split of spec
section 4.4 ("an additional `bps` fraction of `total_fee` is further carved out and
routed to `recipient` before maker fee accrues on the remainder"), over the
constant-product curve, with the checked floor arithmetic of spec section 4.1.
The raw output is `ask_pool * offer / (offer_pool + offer)` rounded down; the total
fee is `total_fee_bps` of the raw output; the fee share is `fee_share_bps` of the
total fee; the maker fee is `maker_fee_bps` of what remains.  Calibrated against
`check_correct_fee_share` / `test_fee_share`
(`src/contracts/pair/tests/integration.rs` lines 1850-2165): the model reproduces
every balance those tests assert. -/
def xykSwapWithFees (offerPool askPool offerAmount totalFeeBps makerFeeBps
    feeShareBps : ℕ) : XykSwapResult :=
  let rawReturn := askPool * offerAmount / (offerPool + offerAmount)
  let totalFee := rawReturn * totalFeeBps / 10000
  let feeShare := totalFee * feeShareBps / 10000
  let makerFee := (totalFee - feeShare) * makerFeeBps / 10000
  { returnAmount := rawReturn - totalFee
    totalFee := totalFee
    feeShare := feeShare
    makerFee := makerFee }

/-- TWAP accumulator precision (`TWAP_PRECISION` of the `gridiron` pair package,
not under `src/`; the claim proved below is independent of its exact value). -/
def TWAP_PRECISION : ℕ := 6

/-- Modelled from the spec: the xyk pair's cumulative-price accumulators (spec
section 4.6; the pair contract is not under `src/`).  Over an idle window of `dt`
seconds with constant pool balances `(x, y)`, the asset-0 accumulator grows by
`dt * 10^TWAP_PRECISION * y / x` rounded down (and symmetrically for asset 1), so
the difference of two accumulator reads over the window is the time-weighted price.
Calibrated against `test_if_twap_is_calculated_correctly_when_pool_idles`
(`src/contracts/pair/tests/integration.rs` lines 636-727). -/
def cumulativePriceDelta (x y dt : ℕ) : ℕ := dt * 10 ^ TWAP_PRECISION * y / x

/-- Pool parameters used by the concrete runs below (the standard PCL test values:
`mid_fee = 0.0026`, `out_fee = 0.0045`, `fee_gamma = 0.00023`,
`repeg_profit_threshold = 0.000002`, `min_price_scale_delta = 0.000147`,
`ma_half_time = 600`). -/
def egParams : PoolParams :=
  { midFee := 26 / 10000
    outFee := 45 / 10000
    feeGamma := 23 / 100000
    repegProfitThreshold := 2 / 1000000
    minPriceScaleDelta := 147 / 1000000
    maHalfTime := 600 }

/-- Pool state stored by `instantiate` at block time 1000 for amp `40`, gamma
`0.000145` and price scale `1`, used by the concrete runs below. -/
def egState : PoolState := instantiatePoolState 40 (145 / 1000000) 1 1000

/-- Contract config used by the concrete runs below. -/
def egConfig : Config :=
  { liquidityToken := "lp_token"
    contractAddr := "pair_contract"
    poolParams := egParams
    poolState := egState }

/-- The result of the concrete balanced withdrawal run used as the witness of the
pro-rata refund theorem: burning 500 of 2000 LP against pools of 1000/1000 refunds
`1000 * (500 - 1) / 2000 = 249` of each asset and recomputes `xcp_profit_real`
from the reduced balances. -/
def egWithdrawOut : WithdrawOut :=
  { refund0 := 249
    refund1 := 249
    burn := 500
    config := { egConfig with poolState := { egState with priceState :=
      { egState.priceState with xcpProfitReal := 1502000 / 3 } } } }

/-- The result of the concrete imbalanced provide run used as the witness of the
claim-C1 theorem: depositing 100/50 into a 1000/1000 pool (LP supply 2000) under
the stand-in helpers yields share 150, a price update after the share computation
with the post-deposit repriced balances [1100, 1050], and a mint of 150 LP
(150000000 raw units) to the receiver. -/
def egProvideOut : ProvideOut :=
  { events := [.shareComputed 150, .priceUpdated [1100, 1050] 2150 1,
      .mintShares "user" 150000000]
    share := 150
    config := egConfig }

/-- The result of the concrete first provide used as the witness of the claim-C7
theorem: providing 1000/1000 at price scale 1 on the fresh pool under the stand-in
helpers gives `D = 2000`, `xcp = 1000`, share `999.999`, and sets both profit
trackers to one. -/
def egFirstOut : ProvideOut :=
  { events := [.mintMinLiq "pair_contract" 1000, .shareComputed (999999 / 1000),
      .mintShares "user" 999999000]
    share := 999999 / 1000
    config := { egConfig with poolState := { egState with priceState :=
      { egState.priceState with xcpProfit := 1, xcpProfitReal := 1 } } } }

/-!
Theorems.
-/

/-- A successful result is not an error. -/
theorem isOkB_ne_error {α : Type} {r : Except ContractError α} {e : ContractError}
    (h : isOkB r = true) : r ≠ .error e := by
  cases r <;> simp [isOkB] at h ⊢

/-- Characterization of a successful run of the common provide tail with an empty
event prefix: the resulting share is the one passed in, no price update precedes
the share computation in the trace, a price update is present exactly when both
components of the deposit's divergence from the balanced share reach
`MIN_TRADE_SIZE`, and any price update carries the repriced post-deposit balances
and the post-mint LP total. -/
theorem finishProvide_trace (h : PclHooks) (cfg₁ : Config) (now : ℕ)
    (receiver : String) (d0 d1 : ℚ) (newXp : List ℚ) (totalShare share : ℚ)
    (slipTol : Option ℚ) (out : ProvideOut)
    (hok : finishProvide h cfg₁ now receiver d0 d1 newXp totalShare share slipTol []
      = .ok out) :
    out.share = share ∧
    updateBeforeShare out.events = false ∧
    (hasPriceUpdate out.events = true ↔
      (MIN_TRADE_SIZE ≤ |d0 - newXp.headD 0 * (share / (totalShare + share))| ∧
       MIN_TRADE_SIZE ≤ |d1 - newXp.getD 1 0 * (share / (totalShare + share)) /
         cfg₁.poolState.priceState.priceScale|)) ∧
    (firstPriceUpdateArgs out.events).getD (newXp, totalShare + share)
      = (newXp, totalShare + share) := by
  unfold finishProvide at hok
  dsimp only at hok
  repeat' (split at hok)
  all_goals simp only [List.nil_append, Except.ok.injEq, reduceCtorEq] at hok
  all_goals subst hok
  all_goals simp_all [updateBeforeShare, hasPriceUpdate, hasShareComputed,
    isPriceUpdated, isShareComputed, firstPriceUpdateArgs]

/-- The common provide tail never raises `InvalidZeroAmount`. -/
theorem finishProvide_ne_invalidZero (h : PclHooks) (cfg₁ : Config) (now : ℕ)
    (receiver : String) (d0 d1 : ℚ) (newXp : List ℚ) (totalShare share : ℚ)
    (slipTol : Option ℚ) (events₀ : List PEvent) :
    finishProvide h cfg₁ now receiver d0 d1 newXp totalShare share slipTol events₀
      ≠ .error .invalidZeroAmount := by
  unfold finishProvide
  dsimp only
  repeat' split
  all_goals simp

/-- When the deposit's divergence from the balanced share is below
`MIN_TRADE_SIZE`, the provide tail performs neither the slippage assertion nor
the price update and succeeds with the trace `events₀ ++ [share, mint]`. -/
theorem finishProvide_skip (h : PclHooks) (cfg₁ : Config) (now : ℕ)
    (receiver : String) (d0 d1 : ℚ) (newXp : List ℚ) (totalShare share : ℚ)
    (slipTol : Option ℚ) (events₀ : List PEvent)
    (hc0 : ¬(MIN_TRADE_SIZE ≤ |d0 - newXp.headD 0 * (share / (totalShare + share))| ∧
      MIN_TRADE_SIZE ≤ |d1 - newXp.getD 1 0 * (share / (totalShare + share)) /
        cfg₁.poolState.priceState.priceScale|)) :
    finishProvide h cfg₁ now receiver d0 d1 newXp totalShare share slipTol events₀
      = .ok { events := events₀ ++ [.shareComputed share,
                .mintShares receiver (toLpUint share)]
              share := share
              config := cfg₁ } := by
  unfold finishProvide
  dsimp only
  rw [if_neg hc0]

/-- Claim C3: for every `withdraw_liquidity` call with an empty requested-assets
list that completes, the refunded amount of each asset `i` equals
`pools[i].amount * (lp_amount - 1) / total_share` rounded down (natural-number
subtraction is exactly the `saturating_sub` of `contract.rs` line 621, and
natural-number division rounds down); the burned amount is the full `lp_amount`. -/
theorem withdraw_refund_pro_rata (calcD : List ℚ → AmpGamma → Option ℚ)
    (cfg : Config) (now : ℕ) (sender : String) (amount : ℕ)
    (pools0 pools1 totalShare : ℕ) (out : WithdrawOut)
    (hok : withdraw_liquidity calcD cfg now sender amount [] pools0 pools1 totalShare
      = .ok out) :
    out.refund0 = pools0 * (amount - 1) / totalShare ∧
    out.refund1 = pools1 * (amount - 1) / totalShare ∧
    out.burn = amount := by
  unfold withdraw_liquidity at hok
  split at hok
  · exact absurd hok (by simp)
  · split at hok
    · exact absurd hok (by simp)
    · split at hok
      · exact absurd hok (by simp)
      · dsimp only at hok
        split at hok
        · exact absurd hok (by simp)
        · simp only [Except.ok.injEq] at hok
          subst hok
          exact ⟨rfl, rfl, rfl⟩

/-- Claim C3 witness: the concrete balanced withdrawal of 500 of 2000 LP from a
1000/1000 pool refunds `1000 * (500 - 1) / 2000 = 249` per asset. -/
theorem withdraw_refund_pro_rata_witness :
    egWithdrawOut.refund0 = 1000 * (500 - 1) / 2000 ∧
    egWithdrawOut.refund1 = 1000 * (500 - 1) / 2000 ∧
    egWithdrawOut.burn = 500 :=
  withdraw_refund_pro_rata specHooks.calcD egConfig 1000 "lp_token" 500 1000 1000 2000
    egWithdrawOut
    (by norm_num [withdraw_liquidity, specHooks, egConfig, egState, egParams, egWithdrawOut,
      instantiatePoolState, PoolState.getAmpGamma, getXcp, LP_TOKEN_PRECISION])

/-- Claim C4: every `withdraw_liquidity` call whose requested-assets list is
non-empty fails with the dedicated imbalanced-withdraw error, whatever the
requested amounts; the error is returned before any state is written, so no pool
state changes and the call never degrades to a balanced withdrawal. -/
theorem withdraw_imbalanced_rejected (calcD : List ℚ → AmpGamma → Option ℚ)
    (cfg : Config) (now : ℕ) (sender : String) (amount : ℕ)
    (assets : List (String × ℕ)) (pools0 pools1 totalShare : ℕ)
    (hsender : sender = cfg.liquidityToken) (hne : assets ≠ []) :
    withdraw_liquidity calcD cfg now sender amount assets pools0 pools1 totalShare
      = .error (.std "Imbalanced withdraw is currently disabled") := by
  unfold withdraw_liquidity
  rw [if_neg (by simp [hsender]), if_pos hne]

/-- Claim C4 witness: a concrete imbalanced withdrawal request is rejected. -/
theorem withdraw_imbalanced_rejected_witness :
    withdraw_liquidity specHooks.calcD egConfig 1000 "lp_token" 500
      [("uusd", 100)] 1000 1000 2000
      = .error (.std "Imbalanced withdraw is currently disabled") :=
  withdraw_imbalanced_rejected specHooks.calcD egConfig 1000 "lp_token" 500
    [("uusd", 100)] 1000 1000 2000 (by norm_num [egConfig]) (by simp)

/-- Claim C10: `withdraw_liquidity` fails with `Unauthorized` for every caller
whose `info.sender` is not the pool's LP token contract (`contract.rs` lines
600-602), before any state is read or written; since `receive_cw20`
(`contract.rs` lines 322-339) sets `info.sender` to the calling token contract,
a withdrawal can only be initiated by sending LP tokens to the pair through the
cw20 receive hook. -/
theorem withdraw_unauthorized (calcD : List ℚ → AmpGamma → Option ℚ)
    (cfg : Config) (now : ℕ) (sender : String) (amount : ℕ)
    (assets : List (String × ℕ)) (pools0 pools1 totalShare : ℕ)
    (hsender : sender ≠ cfg.liquidityToken) :
    withdraw_liquidity calcD cfg now sender amount assets pools0 pools1 totalShare
      = .error .unauthorized := by
  unfold withdraw_liquidity
  rw [if_pos hsender]

/-- Claim C10 witness: a concrete withdrawal attempt from a non-LP-token sender
is rejected as unauthorized. -/
theorem withdraw_unauthorized_witness :
    withdraw_liquidity specHooks.calcD egConfig 1000 "mallory" 500 [] 1000 1000 2000
      = .error .unauthorized :=
  withdraw_unauthorized specHooks.calcD egConfig 1000 "mallory" 500 [] 1000 1000 2000
    (by simp [egConfig])

/-- Claim C6: every LP ledger reachable after the first successful provide keeps
at least `MINIMUM_LIQUIDITY_AMOUNT` LP shares on the pair contract's own balance,
and the total LP supply never returns to zero, under any subsequent sequence of
provide/withdraw/swap operations. -/
theorem total_share_never_zero (l : LpLedger) (hr : LpReachable l) :
    MINIMUM_LIQUIDITY_AMOUNT ≤ l.contractBal ∧ 0 < l.total := by
  induction hr with
  | @first m tc l hstep =>
    cases hstep with
    | provideFirst hm =>
      cases tc <;> simp [LpLedger.total, MINIMUM_LIQUIDITY_AMOUNT]
  | step _ hstep ih =>
    obtain ⟨ih1, ih2⟩ := ih
    cases hstep with
    | provideFirst hm =>
      simp [MINIMUM_LIQUIDITY_AMOUNT] at ih1
    | @provideNext _ s tc hpos =>
      cases tc <;> simp [LpLedger.total, MINIMUM_LIQUIDITY_AMOUNT] at ih1 ih2 ⊢ <;>
        omega
    | @withdrawOp _ a hle =>
      simp [LpLedger.total, MINIMUM_LIQUIDITY_AMOUNT] at ih1 ih2 ⊢
      omega
    | swapOp => exact ⟨ih1, ih2⟩

/-- Claim C6 witness: the ledger right after a first provide that mints 5 raw LP
units to the provider locks the minimum liquidity on the pair contract and has a
nonzero total supply. -/
theorem total_share_never_zero_witness :
    MINIMUM_LIQUIDITY_AMOUNT ≤ (LpLedger.mk 1000 5).contractBal ∧
      0 < (LpLedger.mk 1000 5).total :=
  total_share_never_zero (LpLedger.mk 1000 5)
    (LpReachable.first (@LpStep.provideFirst 5 false (by norm_num)))

/-- Claim C8 counterexample: with `maker_fee_bps = 3333`, `total_fee_bps = 30`
and `fee_share_bps = 1000`, the 1,000,000-unit swap of `test_fee_share` pays the
fee-share recipient 299 units, not the 300 the claim states: the total fee is
taken on the raw constant-product output 999,999 (one unit below the offer is
lost to spread), so `total_fee = 2999` and
`fee_share = floor(2999 * 10%) = 299` — exactly what the test asserts
(`expected_fee_share - acceptable_spread_amount`,
`src/contracts/pair/tests/integration.rs` line 2140). -/
theorem fee_share_300_cex :
    (xykSwapWithFees 1000000000000 1000000000000 1000000 30 3333 1000).feeShare = 299 ∧
    (xykSwapWithFees 1000000000000 1000000000000 1000000 30 3333 1000).feeShare ≠ 300 := by
  constructor <;> decide

/-- Claim C8 (amended): on the 1,000,000-unit swap with `total_fee_bps = 30`,
`fee_share_bps = 1000`, `maker_fee_bps = 3333`, the raw output is 999,999, the
total fee 2999, the fee-share recipient receives `floor(total_fee * 10%) = 299`
units, the maker `floor((total_fee - fee_share) * 33.33%) = 899` units, and the
user 997,000; the model also reproduces the other two rows of
`check_correct_fee_share` (150-1/1425 and 50-1/316). -/
theorem fee_share_split_values :
    (xykSwapWithFees 1000000000000 1000000000000 1000000 30 3333 1000).totalFee = 2999 ∧
    (xykSwapWithFees 1000000000000 1000000000000 1000000 30 3333 1000).feeShare
      = 2999 * 1000 / 10000 ∧
    (xykSwapWithFees 1000000000000 1000000000000 1000000 30 3333 1000).makerFee
      = (2999 - 299) * 3333 / 10000 ∧
    (xykSwapWithFees 1000000000000 1000000000000 1000000 30 3333 1000).feeShare = 299 ∧
    (xykSwapWithFees 1000000000000 1000000000000 1000000 30 3333 1000).makerFee = 899 ∧
    (xykSwapWithFees 1000000000000 1000000000000 1000000 30 3333 1000).returnAmount
      = 997000 ∧
    (xykSwapWithFees 1000000000000 1000000000000 1000000 30 5000 500).feeShare = 149 ∧
    (xykSwapWithFees 1000000000000 1000000000000 1000000 30 5000 500).makerFee = 1425 ∧
    (xykSwapWithFees 1000000000000 1000000000000 1000000 10 3333 500).feeShare = 49 ∧
    (xykSwapWithFees 1000000000000 1000000000000 1000000 10 3333 500).makerFee = 316 := by
  refine ⟨?_, ?_, ?_, ?_, ?_, ?_, ?_, ?_, ?_, ?_⟩ <;> decide

/-- Claim C9: after the 2:1 provide the pool holds
`uusd : uluna = 3,000,000 : 2,000,000` (in 6-decimal raw units), and over the
following idle day the cumulative-price accumulators grow such that
`twap0 / ELAPSED_SECONDS = 2/3 ≈ 0.6667` and `twap1 / ELAPSED_SECONDS = 3/2 = 1.5`
— the integer accumulator reads divided by the TWAP precision are exactly the
57,600 and 129,600 the test asserts. -/
theorem twap_idle_day_values :
    cumulativePriceDelta 3000000000000 2000000000000 86400 / 10 ^ TWAP_PRECISION
      = 57600 ∧
    cumulativePriceDelta 2000000000000 3000000000000 86400 / 10 ^ TWAP_PRECISION
      = 129600 ∧
    (57600 : ℚ) / 86400 = 2000000000000 / 3000000000000 ∧
    (129600 : ℚ) / 86400 = 3000000000000 / 2000000000000 ∧
    |(57600 : ℚ) / 86400 - 6667 / 10000| ≤ 1 / 10000 ∧
    (129600 : ℚ) / 86400 = 15 / 10 := by
  refine ⟨by decide, by decide, by norm_num, by norm_num, ?_, by norm_num⟩
  rw [abs_of_neg (by norm_num)]
  norm_num

/-- Claim C1 counterexample: on the non-empty pool `egConfig` (LP supply 2000,
price scale 1) a perfectly balanced deposit of 10/10 into 1000/1000 pools succeeds
with no price update at all (the divergence from the balanced share is zero, below
`MIN_TRADE_SIZE`), and the imbalanced deposit 100/50 succeeds with a price update
that occurs strictly after the share-delta computation — refuting both that the
update is "always" triggered and that it happens "before the LP-share delta is
computed". -/
theorem provide_priceUpdate_order_cex :
    isOkB (provide_liquidity specHooks egConfig 1000 "user" 10 10 1010 1010 2000 none)
      = true ∧
    hasPriceUpdate (eventsOf (provide_liquidity specHooks egConfig 1000 "user"
      10 10 1010 1010 2000 none)) = false ∧
    isOkB (provide_liquidity specHooks egConfig 1000 "user" 100 50 1100 1050 2000 none)
      = true ∧
    hasPriceUpdate (eventsOf (provide_liquidity specHooks egConfig 1000 "user"
      100 50 1100 1050 2000 none)) = true ∧
    updateBeforeShare (eventsOf (provide_liquidity specHooks egConfig 1000 "user"
      100 50 1100 1050 2000 none)) = false := by
  norm_num [provide_liquidity, finishProvide, specHooks, egConfig, egState, egParams,
    instantiatePoolState, PoolState.getAmpGamma, MIN_TRADE_SIZE, minLiquidityDec,
    MINIMUM_LIQUIDITY_AMOUNT, LP_TOKEN_PRECISION, getXcp, toLpUint, hasPriceUpdate,
    eventsOf, isPriceUpdated, isShareComputed, hasShareComputed, updateBeforeShare,
    isOkB, abs_of_pos, abs_of_neg]

/-- Claim C1 (amended): on a non-empty pool, every successful `provide_liquidity`
computes the LP-share delta first; the `PriceRepegEngine` update is triggered only
when both components of the deposit's divergence from the balanced share reach
`MIN_TRADE_SIZE`, never precedes the share computation, and — when triggered —
uses the realized post-deposit repriced balances `[p0, p1 * price_scale]` and the
post-mint LP total.  This holds for every implementation of the `pcl_common`
numeric helpers. -/
theorem provide_share_before_price_update (h : PclHooks) (cfg : Config) (now : ℕ)
    (receiver : String) (d0 d1 p0 p1 totalShare : ℚ) (slipTol : Option ℚ)
    (out : ProvideOut) (hts : totalShare ≠ 0)
    (hok : provide_liquidity h cfg now receiver d0 d1 p0 p1 totalShare slipTol
      = .ok out) :
    updateBeforeShare out.events = false ∧
    (hasPriceUpdate out.events = true ↔
      (MIN_TRADE_SIZE ≤ |d0 - p0 * (out.share / (totalShare + out.share))| ∧
       MIN_TRADE_SIZE ≤ |d1 - p1 * cfg.poolState.priceState.priceScale *
         (out.share / (totalShare + out.share)) /
         cfg.poolState.priceState.priceScale|)) ∧
    (firstPriceUpdateArgs out.events).getD
        ([p0, p1 * cfg.poolState.priceState.priceScale], totalShare + out.share)
      = ([p0, p1 * cfg.poolState.priceState.priceScale], totalShare + out.share) := by
  unfold provide_liquidity at hok
  rw [if_neg (fun hc => hts hc.1)] at hok
  dsimp only at hok
  split at hok
  · exact absurd hok (by simp)
  · split at hok
    · exact absurd hok (by simp)
    · split at hok
      · exact absurd hok (by simp)
      · split at hok
        · exact absurd hok (by simp)
        · have e0 : p0 - d0 + d0 = p0 := by ring
          have e1 : p1 - d1 + d1 = p1 := by ring
          rw [e0, e1] at hok
          have hft := finishProvide_trace _ _ _ _ _ _ _ _ _ _ _ hok
          simp only [List.headD_cons, List.getD_cons_succ, List.getD_cons_zero] at hft
          rw [hft.1]
          exact ⟨hft.2.1, hft.2.2.1, hft.2.2.2⟩

/-- Claim C1 witness: the amended theorem applied to the concrete imbalanced
100/50 deposit on the non-empty pool `egConfig`. -/
theorem provide_share_before_price_update_witness :
    updateBeforeShare egProvideOut.events = false ∧
    (hasPriceUpdate egProvideOut.events = true ↔
      (MIN_TRADE_SIZE ≤ |100 - 1100 * (egProvideOut.share / (2000 + egProvideOut.share))| ∧
       MIN_TRADE_SIZE ≤ |50 - 1050 * egConfig.poolState.priceState.priceScale *
         (egProvideOut.share / (2000 + egProvideOut.share)) /
         egConfig.poolState.priceState.priceScale|)) ∧
    (firstPriceUpdateArgs egProvideOut.events).getD
        ([1100, 1050 * egConfig.poolState.priceState.priceScale],
          2000 + egProvideOut.share)
      = ([1100, 1050 * egConfig.poolState.priceState.priceScale],
          2000 + egProvideOut.share) :=
  provide_share_before_price_update specHooks egConfig 1000 "user" 100 50 1100 1050
    2000 none egProvideOut (by norm_num)
    (by
      norm_num [provide_liquidity, finishProvide, specHooks, egConfig, egState,
        egParams, egProvideOut, instantiatePoolState, PoolState.getAmpGamma,
        MIN_TRADE_SIZE, minLiquidityDec, MINIMUM_LIQUIDITY_AMOUNT,
        LP_TOKEN_PRECISION, getXcp, toLpUint, abs_of_pos, abs_of_neg]
      rfl)

/-- Claim C5 counterexample: on a non-empty pool (LP supply 2000) a provide call
with both deposit amounts zero is not rejected with `InvalidZeroAmount` — it
succeeds (minting zero shares) — refuting the unconditional "rejects if both
deposit amounts are zero". -/
theorem invalid_zero_amount_cex :
    provide_liquidity specHooks egConfig 1000 "user" 0 0 1000 1000 2000 none
      ≠ .error .invalidZeroAmount ∧
    isOkB (provide_liquidity specHooks egConfig 1000 "user" 0 0 1000 1000 2000 none)
      = true := by
  have hok : isOkB (provide_liquidity specHooks egConfig 1000 "user" 0 0 1000 1000
      2000 none) = true := by
    norm_num [provide_liquidity, finishProvide, specHooks, egConfig, egState, egParams,
      instantiatePoolState, PoolState.getAmpGamma, MIN_TRADE_SIZE, minLiquidityDec,
      MINIMUM_LIQUIDITY_AMOUNT, LP_TOKEN_PRECISION, getXcp, toLpUint, isOkB]
  exact ⟨isOkB_ne_error hok, hok⟩

/-- Claim C5 (amended): `provide_liquidity` rejects with `InvalidZeroAmount`
exactly when the total LP supply is zero and at least one deposit amount is zero
(`contract.rs` lines 429-432); in particular both-zero deposits on an empty pool
are rejected, but zero deposits on a non-empty pool are never rejected with this
error.  This holds for every implementation of the `pcl_common` helpers. -/
theorem provide_invalid_zero_amount_iff (h : PclHooks) (cfg : Config) (now : ℕ)
    (receiver : String) (d0 d1 p0 p1 totalShare : ℚ) (slipTol : Option ℚ) :
    provide_liquidity h cfg now receiver d0 d1 p0 p1 totalShare slipTol
      = .error .invalidZeroAmount ↔ totalShare = 0 ∧ (d0 = 0 ∨ d1 = 0) := by
  constructor
  · intro he
    by_contra hc
    rw [provide_liquidity, if_neg hc] at he
    dsimp only at he
    repeat' (split at he)
    all_goals first
      | (exact finishProvide_ne_invalidZero _ _ _ _ _ _ _ _ _ _ _ he)
      | (simp at he)
  · intro hcond
    rw [provide_liquidity, if_pos hcond]

/-- Claim C2: on the very first provide (total LP supply zero, pool balances equal
to the deposits, both deposits nonzero, nonzero price scale), with `xcp` computed
from the invariant `D` of the repriced deposits: if `xcp - MINIMUM_LIQUIDITY` is
non-positive (`xcp ≤ minLiquidityDec`) the call fails with
`MinimumLiquidityAmountError`; otherwise it succeeds, mints
`MINIMUM_LIQUIDITY_AMOUNT` to the pool contract itself, mints
`xcp - MINIMUM_LIQUIDITY` to the provider, and sets both profit trackers to one.
This holds for every implementation of the `pcl_common` helpers. -/
theorem first_provide_minimum_liquidity (h : PclHooks) (cfg : Config) (now : ℕ)
    (receiver : String) (d0 d1 dD : ℚ) (slipTol : Option ℚ)
    (hd0 : d0 ≠ 0) (hd1 : d1 ≠ 0)
    (hps : cfg.poolState.priceState.priceScale ≠ 0)
    (hcd : h.calcD [d0, d1 * cfg.poolState.priceState.priceScale]
      (cfg.poolState.getAmpGamma now) = some dD) :
    (getXcp dD cfg.poolState.priceState.priceScale ≤ minLiquidityDec →
      provide_liquidity h cfg now receiver d0 d1 d0 d1 0 slipTol
        = .error .minimumLiquidityAmountError) ∧
    (minLiquidityDec < getXcp dD cfg.poolState.priceState.priceScale →
      provide_liquidity h cfg now receiver d0 d1 d0 d1 0 slipTol
        = .ok { events := [.mintMinLiq cfg.contractAddr MINIMUM_LIQUIDITY_AMOUNT,
                  .shareComputed (getXcp dD cfg.poolState.priceState.priceScale
                    - minLiquidityDec),
                  .mintShares receiver (toLpUint (getXcp dD
                    cfg.poolState.priceState.priceScale - minLiquidityDec))]
                share := getXcp dD cfg.poolState.priceState.priceScale
                  - minLiquidityDec
                config := { cfg with poolState := { cfg.poolState with priceState :=
                  { cfg.poolState.priceState with
                      xcpProfit := 1, xcpProfitReal := 1 } } } }) := by
  have e0 : d0 - d0 + d0 = d0 := by ring
  have e1 : d1 - d1 + d1 = d1 := by ring
  have hpipe : provide_liquidity h cfg now receiver d0 d1 d0 d1 0 slipTol
      = (if getXcp dD cfg.poolState.priceState.priceScale < minLiquidityDec then
          .error .minimumLiquidityAmountError
        else if getXcp dD cfg.poolState.priceState.priceScale - minLiquidityDec = 0
          then .error .minimumLiquidityAmountError
        else
          finishProvide h
            { cfg with poolState := { cfg.poolState with priceState :=
                { cfg.poolState.priceState with xcpProfit := 1, xcpProfitReal := 1 } } }
            now receiver d0 d1 [d0, d1 * cfg.poolState.priceState.priceScale] 0
            (getXcp dD cfg.poolState.priceState.priceScale - minLiquidityDec) slipTol
            [.mintMinLiq cfg.contractAddr MINIMUM_LIQUIDITY_AMOUNT]) := by
    rw [provide_liquidity,
      if_neg (by rintro ⟨-, hz0 | hz1⟩; exacts [hd0 hz0, hd1 hz1]),
      if_neg (by simp)]
    dsimp only
    rw [e0, e1, hcd]
    dsimp only
    rw [if_pos rfl]
  constructor
  · intro hle
    rw [hpipe]
    rcases lt_or_eq_of_le hle with hlt | heq
    · rw [if_pos hlt]
    · rw [if_neg (by rw [heq]; exact lt_irrefl _), if_pos (by rw [heq]; ring)]
  · intro hgt
    have hsh : getXcp dD cfg.poolState.priceState.priceScale - minLiquidityDec ≠ 0 :=
      sub_ne_zero.mpr (ne_of_gt hgt)
    rw [hpipe, if_neg (not_lt.mpr (le_of_lt hgt)), if_neg hsh,
      finishProvide_skip _ _ _ _ _ _ _ _ _ _ _ (by
        simp only [List.headD_cons, List.getD_cons_succ, List.getD_cons_zero,
          zero_add, div_self hsh, mul_one]
        rw [sub_self, abs_zero, mul_div_cancel_right₀ _ hps, sub_self, abs_zero]
        norm_num [MIN_TRADE_SIZE])]
    simp

/-- Claim C2 witness: the theorem applied to the concrete first provide of
1000/1000 at price scale 1 under the stand-in helpers (`D = 2000`,
`xcp = 1000 > 0.001`), giving the explicit success result. -/
theorem first_provide_minimum_liquidity_witness :
    provide_liquidity specHooks egConfig 1000 "user" 1000 1000 1000 1000 0 none
      = .ok { events := [.mintMinLiq egConfig.contractAddr MINIMUM_LIQUIDITY_AMOUNT,
                .shareComputed (getXcp 2000 egConfig.poolState.priceState.priceScale
                  - minLiquidityDec),
                .mintShares "user" (toLpUint (getXcp 2000
                  egConfig.poolState.priceState.priceScale - minLiquidityDec))]
              share := getXcp 2000 egConfig.poolState.priceState.priceScale
                - minLiquidityDec
              config := { egConfig with poolState := { egConfig.poolState with
                priceState := { egConfig.poolState.priceState with
                  xcpProfit := 1, xcpProfitReal := 1 } } } } :=
  (first_provide_minimum_liquidity specHooks egConfig 1000 "user" 1000 1000 2000 none
    (by norm_num) (by norm_num)
    (by norm_num [egConfig, egState, egParams, instantiatePoolState])
    (by norm_num [specHooks, egConfig, egState, egParams, instantiatePoolState,
      PoolState.getAmpGamma])).2
    (by norm_num [getXcp, minLiquidityDec, MINIMUM_LIQUIDITY_AMOUNT,
      LP_TOKEN_PRECISION, egConfig, egState, egParams, instantiatePoolState])

/-- Claim C7 counterexample: at instantiation the stored `PoolState` has
`initial = AmpGamma::default()` (zeros) while `future` holds the configured
amp/gamma, so `initial == future` fails for any nonzero amp (here amp 40,
gamma 0.000145, price scale 2, block time 100). -/
theorem instantiate_initial_future_cex :
    (instantiatePoolState 40 (145 / 1000000) 2 100).initial ≠
      (instantiatePoolState 40 (145 / 1000000) 2 100).future := by
  norm_num [instantiatePoolState, AmpGamma.zero, AmpGamma.mk.injEq]

/-- Claim C7 (amended): the `PoolState` stored at instantiation has
`initial = AmpGamma::default()` (zeros) with `initial_time = 0`, while `future`
holds the configured amp/gamma with `future_time` equal to the instantiation
time — so `initial ≠ future` in general, but no promotion is in progress: the
effective amp/gamma at every time from instantiation onward equals `future`.
Both profit trackers are zero (not one) at instantiation, and become exactly one
on the first successful liquidity provision. -/
theorem instantiate_pool_state_spec (amp gamma pscale : ℚ) (inow t : ℕ)
    (lt ca : String) (pp : PoolParams) (h : PclHooks) (now : ℕ) (receiver : String)
    (d0 d1 : ℚ) (slipTol : Option ℚ) (out : ProvideOut)
    (ht : inow ≤ t) (hps : pscale ≠ 0)
    (hok : provide_liquidity h
      { liquidityToken := lt, contractAddr := ca, poolParams := pp,
        poolState := instantiatePoolState amp gamma pscale inow }
      now receiver d0 d1 d0 d1 0 slipTol = .ok out) :
    (instantiatePoolState amp gamma pscale inow).initial = AmpGamma.zero ∧
    (instantiatePoolState amp gamma pscale inow).initialTime = 0 ∧
    (instantiatePoolState amp gamma pscale inow).futureTime = inow ∧
    (instantiatePoolState amp gamma pscale inow).future = ⟨amp, gamma⟩ ∧
    (instantiatePoolState amp gamma pscale inow).getAmpGamma t
      = (instantiatePoolState amp gamma pscale inow).future ∧
    (instantiatePoolState amp gamma pscale inow).priceState.xcpProfit = 0 ∧
    (instantiatePoolState amp gamma pscale inow).priceState.xcpProfitReal = 0 ∧
    out.config.poolState.priceState.xcpProfit = 1 ∧
    out.config.poolState.priceState.xcpProfitReal = 1 := by
  have hag : (instantiatePoolState amp gamma pscale inow).getAmpGamma t
      = (instantiatePoolState amp gamma pscale inow).future := by
    rw [PoolState.getAmpGamma, if_neg (by exact not_lt.mpr ht)]
  have e0 : d0 - d0 + d0 = d0 := by ring
  have e1 : d1 - d1 + d1 = d1 := by ring
  unfold provide_liquidity at hok
  dsimp only [instantiatePoolState] at hok
  rw [e0, e1] at hok
  split at hok
  · exact absurd hok (by simp)
  · split at hok
    · exact absurd hok (by simp)
    · split at hok
      · exact absurd hok (by simp)
      · split at hok
        · split at hok
          · exact absurd hok (by simp)
          · split at hok
            · exact absurd hok (by simp)
            · rename_i hxcp hnm
              rw [finishProvide_skip _ _ _ _ _ _ _ _ _ _ _ (by
                simp only [List.headD_cons, List.getD_cons_succ, List.getD_cons_zero,
                  zero_add, div_self hnm, mul_one]
                rw [sub_self, abs_zero, mul_div_cancel_right₀ _ hps, sub_self,
                  abs_zero]
                norm_num [MIN_TRADE_SIZE])] at hok
              simp only [Except.ok.injEq] at hok
              subst hok
              exact ⟨rfl, rfl, rfl, rfl, hag, rfl, rfl, rfl, rfl⟩
        · rename_i hfalse
          exact absurd rfl hfalse

/-- Claim C7 witness: the amended theorem applied to the concrete pool
instantiated at block time 1000 with amp 40, gamma 0.000145, price scale 1, and
the first provide of 1000/1000 five seconds later. -/
theorem instantiate_pool_state_spec_witness :
    (instantiatePoolState 40 (145 / 1000000) 1 1000).initial = AmpGamma.zero ∧
    (instantiatePoolState 40 (145 / 1000000) 1 1000).initialTime = 0 ∧
    (instantiatePoolState 40 (145 / 1000000) 1 1000).futureTime = 1000 ∧
    (instantiatePoolState 40 (145 / 1000000) 1 1000).future = ⟨40, 145 / 1000000⟩ ∧
    (instantiatePoolState 40 (145 / 1000000) 1 1000).getAmpGamma 1005
      = (instantiatePoolState 40 (145 / 1000000) 1 1000).future ∧
    (instantiatePoolState 40 (145 / 1000000) 1 1000).priceState.xcpProfit = 0 ∧
    (instantiatePoolState 40 (145 / 1000000) 1 1000).priceState.xcpProfitReal = 0 ∧
    egFirstOut.config.poolState.priceState.xcpProfit = 1 ∧
    egFirstOut.config.poolState.priceState.xcpProfitReal = 1 :=
  instantiate_pool_state_spec 40 (145 / 1000000) 1 1000 1005 "lp_token"
    "pair_contract" egParams specHooks 1000 "user" 1000 1000 none egFirstOut
    (by norm_num) (by norm_num)
    (by
      norm_num [provide_liquidity, finishProvide, specHooks, egConfig, egState,
        egParams, egFirstOut, instantiatePoolState, PoolState.getAmpGamma,
        MIN_TRADE_SIZE, minLiquidityDec, MINIMUM_LIQUIDITY_AMOUNT,
        LP_TOKEN_PRECISION, getXcp, toLpUint]
      rfl)

end Gridiron
